import Mathlib

/-!
Shallow embedding of the rule evaluation engine of the azure-migration-analyzer
repository (backend/src/engine.ts) and of the per-row logic of its conformance
harness (backend/src/verifyService.ts), together with proofs of the spec claims.

JavaScript dynamic values are modelled by the `JsValue` type; code paths that
would raise a runtime `TypeError` (e.g. calling `.toLowerCase()` on a value
that is not a string) are modelled by returning `none` in `Option`.
-/

set_option maxRecDepth 4000

/-- A JSON-like JavaScript value: `undefined`, `null`, booleans, (integer)
numbers, strings, arrays and objects. -/
inductive JsValue where
  | undef : JsValue
  | null : JsValue
  | bool : Bool → JsValue
  | num : Int → JsValue
  | str : String → JsValue
  | arr : List JsValue → JsValue
  | obj : List (String × JsValue) → JsValue

/-- JavaScript truthiness: `undefined`, `null`, `false`, `0` and `""` are
falsy; every array and object is truthy. -/
def JsValue.truthy : JsValue → Bool
  | JsValue.undef => false
  | JsValue.null => false
  | JsValue.bool b => b
  | JsValue.num n => n != 0
  | JsValue.str s => s != ""
  | JsValue.arr _ => true
  | JsValue.obj _ => true

def JsValue.isUndef : JsValue → Bool
  | JsValue.undef => true
  | _ => false

def JsValue.isNull : JsValue → Bool
  | JsValue.null => true
  | _ => false

/-- `absent` means the value is `undefined` or `null` — exactly the values the
engine's condition gate treats as "field not present". -/
def JsValue.absent (v : JsValue) : Bool := v.isUndef || v.isNull

def JsValue.isStr : JsValue → Bool
  | JsValue.str _ => true
  | _ => false

/-- JavaScript property access `v[key]`: looks a key up in an object, yields
`undefined` on everything else (the engine only reads properties of objects). -/
def JsValue.get : JsValue → String → JsValue
  | JsValue.obj fields, key =>
    match fields.lookup key with
    | some v => v
    | none => JsValue.undef
  | _, _ => JsValue.undef

/-- JavaScript `a || b`: `a` if truthy, else `b`. -/
def jsOr (a b : JsValue) : JsValue := if a.truthy then a else b

mutual
/-- JavaScript `String(v)` coercion. -/
def jsToString : JsValue → String
  | JsValue.undef => "undefined"
  | JsValue.null => "null"
  | JsValue.bool true => "true"
  | JsValue.bool false => "false"
  | JsValue.num n => toString n
  | JsValue.str s => s
  | JsValue.arr xs => jsArrToString xs
  | JsValue.obj _ => "[object Object]"

/-- `Array.prototype.toString`: elements joined with `,`. -/
def jsArrToString : List JsValue → String
  | [] => ""
  | [x] => jsElemToString x
  | x :: y :: xs => jsElemToString x ++ "," ++ jsArrToString (y :: xs)

/-- Inside an array join, `null` and `undefined` print as the empty string. -/
def jsElemToString : JsValue → String
  | JsValue.undef => ""
  | JsValue.null => ""
  | JsValue.bool true => "true"
  | JsValue.bool false => "false"
  | JsValue.num n => toString n
  | JsValue.str s => s
  | JsValue.arr xs => jsArrToString xs
  | JsValue.obj _ => "[object Object]"
end

/-- JavaScript `String.prototype.includes`: substring containment. -/
def strIncludes (s sub : String) : Bool := decide (sub.data <:+: s.data)

/-! JavaScript string primitives, modelled over the character list of the
Lean string (computable by the kernel; the source only ever handles ASCII
configuration strings, where JS UTF-16 semantics and Lean characters agree). -/

/-- `String.prototype.toLowerCase`. -/
def strLower (s : String) : String := String.mk (s.data.map Char.toLower)

/-- `String.prototype.startsWith`. -/
def strStarts (s pre : String) : Bool := List.isPrefixOf pre.data s.data

/-- `String.prototype.endsWith`. -/
def strEnds (s suf : String) : Bool := List.isPrefixOf suf.data.reverse s.data.reverse

/-- `String.prototype.slice(0, -n)` for `0 < n ≤ length`. -/
def strDropRight (s : String) (n : Nat) : String :=
  String.mk (s.data.take (s.data.length - n))

/-- `String.prototype.length` (UTF-16 units; characters here). -/
def strLen (s : String) : Nat := s.data.length

/-- JavaScript `s[n]`: the character at index `n`, if in range. -/
def charAt (s : String) (n : Nat) : Option Char := s.data.get? n

/-- Splitting a character list on a separator character. -/
def splitCharList (sep : Char) : List Char → List (List Char)
  | [] => [[]]
  | c :: cs =>
    let rest := splitCharList sep cs
    if c == sep then [] :: rest
    else
      match rest with
      | [] => [[c]]
      | g :: gs => (c :: g) :: gs

/-- JavaScript `String.prototype.split` with a one-character separator
(the source splits only on `"."` and `";"`). -/
def strSplit (s : String) (sep : Char) : List String :=
  (splitCharList sep s.data).map String.mk

/-- `String.prototype.trim`: strip whitespace from both ends. -/
def strTrim (s : String) : String :=
  String.mk (((s.data.dropWhile Char.isWhitespace).reverse.dropWhile Char.isWhitespace).reverse)

/-- One step of the `reduce` inside `getNestedValue` (engine.ts line 25):
`(acc && acc[part] !== undefined) ? acc[part] : undefined`. -/
def walkStep (acc : JsValue) (part : String) : JsValue :=
  if acc.truthy && !(acc.get part).isUndef then acc.get part else JsValue.undef

/-- The whole `reduce` over the split path. -/
def walkPath (v : JsValue) (parts : List String) : JsValue :=
  parts.foldl walkStep v

/-- `getNestedValue` (engine.ts lines 23-26): `if (!path) return undefined;`
then split on `.` and reduce. -/
def getNestedValue (obj : JsValue) (path : String) : JsValue :=
  if path == "" then JsValue.undef else walkPath obj (strSplit path '.')

/-- The four members of the `MigrationScenario` string union in engine.ts
(named `ScenarioKind` here for Lean-side reasons only). -/
inductive ScenarioKind where
  | crossTenant : ScenarioKind
  | crossSubscription : ScenarioKind
  | crossResourcegroup : ScenarioKind
  | crossRegion : ScenarioKind
deriving DecidableEq

/-- The string literal each scenario member stands for. -/
def scenarioStr : ScenarioKind → String
  | ScenarioKind.crossTenant => "cross-tenant"
  | ScenarioKind.crossSubscription => "cross-subscription"
  | ScenarioKind.crossResourcegroup => "cross-resourcegroup"
  | ScenarioKind.crossRegion => "cross-region"

/-- A rule condition: `{ field, operator, value }`. -/
structure Condition where
  field : String
  operator : String
  value : JsValue

/-- A rule record as read from the rule JSON files.  The source accesses the
fields `scenario` (here `scenarioName`), `resourceType`, `severity`, `id`,
`message`, `impact`, `workaround`, `downtimeRisk`, `refLink`, `condition`. -/
structure Rule where
  id : String
  scenarioName : String
  resourceType : String
  severity : String
  message : String
  impact : String
  workaround : String
  downtimeRisk : Bool
  refLink : String
  condition : Option Condition

/-- The scenario gate of `evaluateRule` (engine.ts lines 30-34). -/
def scenarioGate (ruleScenario : String) (scenKind : ScenarioKind) : Bool :=
  ruleScenario == scenarioStr scenKind
    || (match scenKind with
        | ScenarioKind.crossResourcegroup => ruleScenario == "cross-subscription"
        | _ => false)

/-- The type gate of `evaluateRule` (engine.ts lines 38-49), taking the two
already-lowercased strings. -/
def typeMatches (resType ruleType : String) : Bool :=
  if ruleType == "*" || ruleType == resType then true
  else if strEnds ruleType "/*" then
    let pfx := strDropRight ruleType 2
    if strStarts resType pfx then
      strLen resType == strLen pfx || charAt resType (strLen pfx) == some '/'
    else false
  else false

/-- The type and condition gates of `evaluateRule` (engine.ts lines 36-68),
for a record whose `type` field is the string `t`; each early `return` of
the source becomes a boolean result. -/
def typeCondGates (res : JsValue) (rule : Rule) (t : String) : Bool :=
  let resType := strLower t
  let ruleType := strLower rule.resourceType
  if !(typeMatches resType ruleType) then false
  else
    match rule.condition with
    | none => true
    | some cond =>
      let value := getNestedValue res cond.field
      if value.isUndef || value.isNull then false
      else
        let ruleVal := strLower (jsToString cond.value)
        let actualVal := strLower (jsToString value)
        match cond.operator with
        | "eq" => actualVal == ruleVal
        | "neq" => actualVal != ruleVal
        | "contains" => strIncludes actualVal ruleVal
        | "notEmpty" =>
          (match value with
           | JsValue.arr xs => decide (0 < xs.length)
           | _ => false)
        | _ => false

/-- `evaluateRule` (engine.ts lines 29-69).  `none` models a thrown
`TypeError`: `res.type.toLowerCase()` throws when `res.type` is not a
string (this access happens only after the scenario gate passed). -/
def evaluateRule (res : JsValue) (rule : Rule) (scenKind : ScenarioKind) : Option Bool :=
  if !(scenarioGate rule.scenarioName scenKind) then some false
  else
    match res.get "type" with
    | JsValue.str t => some (typeCondGates res rule t)
    | _ => none

/-- An issue pushed by `analyzeResource` (engine.ts lines 78-86). -/
structure Issue where
  ruleId : String
  severity : String
  message : String
  impact : String
  workaround : String
  downtimeRisk : Bool
  refLink : String
deriving DecidableEq, Repr

/-- The issue object built from a firing rule. -/
def mkIssue (rule : Rule) : Issue :=
  Issue.mk rule.id rule.severity rule.message rule.impact rule.workaround
    rule.downtimeRisk rule.refLink

/-- The issue-collection loop of `analyzeResource` (the `forEach` at
engine.ts lines 76-88); the first rule evaluation that throws aborts the
whole analysis. -/
def collectIssues (rules : List Rule) (res : JsValue) (scenKind : ScenarioKind) :
    Option (List Issue) :=
  match rules with
  | [] => some []
  | rule :: rest =>
    match evaluateRule res rule scenKind with
    | none => none
    | some fires =>
      match collectIssues rest res scenKind with
      | none => none
      | some tail => some (if fires then mkIssue rule :: tail else tail)

/-- The verdict reduction of `analyzeResource` (engine.ts lines 74 and
90-93): `status` starts `'Ready'` and is overwritten by the first matching
arm of the if/else-if chain. -/
def statusOf (issues : List Issue) : String :=
  if issues.any (fun i => i.severity == "Blocker") then "Blocker"
  else if issues.any (fun i => i.severity == "Critical") then "Critical"
  else if issues.any (fun i => i.severity == "Warning") then "Warning"
  else if issues.any (fun i => i.severity == "Info") then "Info"
  else "Ready"

/-- The `AnalyzedResource` record returned by `analyzeResource`
(engine.ts lines 99-109). -/
structure AnalyzedResource where
  id : JsValue
  name : JsValue
  type : JsValue
  resourceGroup : JsValue
  locationField : JsValue
  subscriptionId : JsValue
  subscriptionName : JsValue
  migrationStatus : String
  issues : List Issue

/-- The record construction of `analyzeResource` (engine.ts lines 96-109)
given the collected issues: the defensive `||` fallbacks for every identity
field, with `subscriptionName` falling back to the computed subscription id. -/
def buildAnalyzed (res : JsValue) (issues : List Issue) : AnalyzedResource :=
  let status := statusOf issues
  let subId := jsOr (res.get "subscriptionId")
    (jsOr (res.get "subscriptionid") (JsValue.str "unknown-sub-id"))
  let subName := jsOr (res.get "subscriptionName")
    (jsOr (res.get "subscriptionname") subId)
  AnalyzedResource.mk
    (jsOr (res.get "id") (JsValue.str "unknown-id"))
    (jsOr (res.get "name") (JsValue.str "Unknown Resource"))
    (jsOr (res.get "type") (JsValue.str "unknown/type"))
    (jsOr (res.get "resourceGroup")
      (jsOr (res.get "resourcegroup") (JsValue.str "No Resource Group")))
    (jsOr (res.get "location") (JsValue.str "unknown"))
    subId subName status issues

/-- `analyzeResource` (engine.ts lines 72-110), parameterised by the rule
corpus (`rulesData` in the source is the concatenation of the four rule
JSON files, which are configuration, not code).  `none` models a thrown
`TypeError`; the accesses `res.subscriptionId` etc. at lines 96-103 throw
exactly when `res` itself is `null`/`undefined`. -/
def analyzeResource (rules : List Rule) (res : JsValue) (scenKind : ScenarioKind) :
    Option AnalyzedResource :=
  match collectIssues rules res scenKind with
  | none => none
  | some issues =>
    if res.isUndef || res.isNull then none
    else some (buildAnalyzed res issues)

/-! ### Conformance harness (backend/src/verifyService.ts) -/

/-- A `FailureDetail` record (verifyService.ts lines 40-46). -/
structure FailureDetail where
  row : Nat
  resource : String
  scenarioLabel : String
  expected : String
  got : String
deriving DecidableEq, Repr

/-- The accumulating `logicResult` object (verifyService.ts line 91). -/
structure LogicResult where
  passed : Nat
  failed : Nat
  total : Nat
  failures : List FailureDetail
deriving DecidableEq, Repr

/-- `createMockResource` (verifyService.ts lines 56-70): a synthetic record
seeded with the resource type; keyword-sniffing the notes cell sets
`sku.name`, `properties.incremental`, `properties.jobState`. -/
def createMockResource (provider ty conditionNotes : String) : JsValue :=
  let notes := strLower conditionNotes
  let skuFields :=
    if strIncludes notes "standard" then [("name", JsValue.str "Standard")] else []
  let propFields :=
    (if strIncludes notes "incremental" then [("incremental", JsValue.bool true)] else [])
      ++ (if strIncludes notes "running" then [("jobState", JsValue.str "Running")] else [])
  JsValue.obj
    [("id", JsValue.str
        ("/subscriptions/xxx/resourceGroups/test/providers/" ++ provider ++ "/" ++ ty ++ "/test-res")),
     ("name", JsValue.str "test-resource"),
     ("type", JsValue.str (provider ++ "/" ++ ty)),
     ("resourceGroup", JsValue.str "test-rg"),
     ("location", JsValue.str "westeurope"),
     ("sku", JsValue.obj skuFields),
     ("properties", JsValue.obj propFields)]

/-- The harness's should-block mapping for one CSV cell (verifyService.ts
lines 109 and 119): lowercased cell starts with `"no"` or equals
`"pending"`. -/
def expBlockOf (cell : String) : Bool :=
  strStarts (strLower cell) "no" || strLower cell == "pending"

/-- The loop body of `runIntegrationTest` for one split CSV line
(verifyService.ts lines 98-127), parameterised by the rule corpus and
the loop index `i`; `none` models a thrown exception propagating out of
`analyzeResource`. -/
def processCols (rules : List Rule) (cols : List String) (i : Nat) (acc : LogicResult) :
    Option LogicResult :=
  if cols.length < 5 then some acc
  else
    let provider := strTrim (cols.getD 0 "")
    let resType := strTrim (cols.getD 1 "")
    let subMoveCsv := strTrim (cols.getD 3 "")
    let regMoveCsv := strTrim (cols.getD 4 "")
    match analyzeResource rules (createMockResource provider resType subMoveCsv)
        ScenarioKind.crossSubscription with
    | none => none
    | some resSub =>
      let expBlock := expBlockOf subMoveCsv
      let acc1 :=
        if expBlock && resSub.migrationStatus != "Blocker" then
          LogicResult.mk acc.passed (acc.failed + 1) acc.total
            (acc.failures ++ [FailureDetail.mk (i + 1) (provider ++ "/" ++ resType)
              "Sub" "Blocker" resSub.migrationStatus])
        else LogicResult.mk (acc.passed + 1) acc.failed acc.total acc.failures
      match analyzeResource rules (createMockResource provider resType regMoveCsv)
          ScenarioKind.crossRegion with
      | none => none
      | some resReg =>
        let expCrit := expBlockOf regMoveCsv
        let acc2 :=
          if expCrit && resReg.migrationStatus != "Critical"
              && resReg.migrationStatus != "Warning" then
            LogicResult.mk acc1.passed (acc1.failed + 1) acc1.total
              (acc1.failures ++ [FailureDetail.mk (i + 1) (provider ++ "/" ++ resType)
                "Region" "Critical" resReg.migrationStatus])
          else LogicResult.mk (acc1.passed + 1) acc1.failed acc1.total acc1.failures
        some (LogicResult.mk acc2.passed acc2.failed (acc2.total + 2) acc2.failures)

/-- One raw CSV line: split on `;` before per-cell trimming. -/
def processLine (rules : List Rule) (line : String) (i : Nat) (acc : LogicResult) :
    Option LogicResult :=
  processCols rules (strSplit line ';') i acc

/-! ### Helper notions used by the theorem statements -/

/-- The rules of a corpus that fire on a record, in corpus order. -/
def firingRules (rules : List Rule) (res : JsValue) (scenKind : ScenarioKind) : List Rule :=
  rules.filter (fun r => evaluateRule res r scenKind == some true)

/-- The issue list the analyzer produces: one issue per firing rule, in
corpus order. -/
def issuesOf (rules : List Rule) (res : JsValue) (scenKind : ScenarioKind) : List Issue :=
  (firingRules rules res scenKind).map mkIssue

/-- Numeric severity rank: Blocker 4 > Critical 3 > Warning 2 > Info 1 >
anything else (including Ready) 0. -/
def sevRank (s : String) : Nat :=
  if s == "Blocker" then 4
  else if s == "Critical" then 3
  else if s == "Warning" then 2
  else if s == "Info" then 1
  else 0

/-- The highest severity rank present in an issue list. -/
def maxRank (issues : List Issue) : Nat :=
  issues.foldr (fun i m => Nat.max (sevRank i.severity) m) 0

/-- The canonical status string of a given rank. -/
def statusOfRank : Nat → String
  | 4 => "Blocker"
  | 3 => "Critical"
  | 2 => "Warning"
  | 1 => "Info"
  | _ => "Ready"

/-! ### Helper lemmas -/

theorem evaluateRule_isSome (res : JsValue) (rule : Rule) (sk : ScenarioKind)
    (h : (res.get "type").isStr = true) : ∃ b, evaluateRule res rule sk = some b := by
  unfold evaluateRule
  split
  · exact ⟨false, rfl⟩
  · split
    · exact ⟨_, rfl⟩
    · next t hv =>
      cases hg : res.get "type"
      case str s => exact (hv s hg).elim
      all_goals rw [hg] at h; simp [JsValue.isStr] at h

theorem isStr_get_obj {res : JsValue} (h : (res.get "type").isStr = true) :
    res.isUndef = false ∧ res.isNull = false := by
  cases res <;> simp_all [JsValue.get, JsValue.isStr, JsValue.isUndef, JsValue.isNull]

theorem collectIssues_eq (rules : List Rule) (res : JsValue) (sk : ScenarioKind)
    (h : (res.get "type").isStr = true) :
    collectIssues rules res sk = some (issuesOf rules res sk) := by
  induction rules with
  | nil => simp [collectIssues, issuesOf, firingRules]
  | cons r rest ih =>
    obtain ⟨b, hb⟩ := evaluateRule_isSome res r sk h
    simp only [collectIssues, hb, ih]
    cases b <;> simp [issuesOf, firingRules, List.filter_cons, hb]

theorem analyzeResource_char (rules : List Rule) (res : JsValue) (sk : ScenarioKind)
    (h : (res.get "type").isStr = true) :
    analyzeResource rules res sk = some (buildAnalyzed res (issuesOf rules res sk)) := by
  obtain ⟨h1, h2⟩ := isStr_get_obj h
  simp [analyzeResource, collectIssues_eq rules res sk h, h1, h2]

theorem analyzeResource_status {rules : List Rule} {res : JsValue} {sk : ScenarioKind}
    {out : AnalyzedResource} (h : analyzeResource rules res sk = some out) :
    out.migrationStatus = statusOf out.issues := by
  unfold analyzeResource at h
  split at h
  · exact absurd h (by simp)
  · split at h
    · exact absurd h (by simp)
    · injection h with h2
      rw [← h2]
      simp [buildAnalyzed]

theorem sevRank_le_four (s : String) : sevRank s ≤ 4 := by
  unfold sevRank; split_ifs <;> omega

theorem mem_sevRank_le_maxRank {i : Issue} {l : List Issue} (h : i ∈ l) :
    sevRank i.severity ≤ maxRank l := by
  induction l with
  | nil => cases h
  | cons a t ih =>
    rcases List.mem_cons.mp h with rfl | ht
    · simp [maxRank]
    · simp only [maxRank, List.foldr_cons]
      exact le_trans (ih ht) (Nat.le_max_right _ _)

theorem maxRank_le {l : List Issue} {n : Nat} (h : ∀ i ∈ l, sevRank i.severity ≤ n) :
    maxRank l ≤ n := by
  induction l with
  | nil => simp [maxRank]
  | cons a t ih =>
    simp only [maxRank, List.foldr_cons]
    exact Nat.max_le.mpr ⟨h a (List.mem_cons_self a t), ih fun i hi => h i (List.mem_cons_of_mem a hi)⟩

theorem sevRank_le_three {s : String} (h : s ≠ "Blocker") : sevRank s ≤ 3 := by
  unfold sevRank
  split_ifs with h1 <;> first | (exact absurd (by simpa using h1) h) | omega

theorem sevRank_le_two {s : String} (hb : s ≠ "Blocker") (hc : s ≠ "Critical") :
    sevRank s ≤ 2 := by
  unfold sevRank
  split_ifs with h1 h2 <;>
    first
    | (exact absurd (by simpa using h1) hb)
    | (exact absurd (by simpa using h2) hc)
    | omega

theorem sevRank_le_one {s : String} (hb : s ≠ "Blocker") (hc : s ≠ "Critical")
    (hw : s ≠ "Warning") : sevRank s ≤ 1 := by
  unfold sevRank
  split_ifs with h1 h2 h3 <;>
    first
    | (exact absurd (by simpa using h1) hb)
    | (exact absurd (by simpa using h2) hc)
    | (exact absurd (by simpa using h3) hw)
    | omega

theorem sevRank_eq_zero {s : String} (hb : s ≠ "Blocker") (hc : s ≠ "Critical")
    (hw : s ≠ "Warning") (hi : s ≠ "Info") : sevRank s = 0 := by
  unfold sevRank
  split_ifs with h1 h2 h3 h4 <;>
    first
    | (exact absurd (by simpa using h1) hb)
    | (exact absurd (by simpa using h2) hc)
    | (exact absurd (by simpa using h3) hw)
    | (exact absurd (by simpa using h4) hi)
    | rfl

theorem sevRank_of_eq {s t : String} (h : s = t) : sevRank s = sevRank t := by rw [h]

theorem statusOf_eq (l : List Issue) : statusOf l = statusOfRank (maxRank l) := by
  by_cases hB : l.any (fun i => i.severity == "Blocker") = true
  · obtain ⟨i, hi, hsev⟩ := List.any_eq_true.mp hB
    have hsev' : i.severity = "Blocker" := by simpa using hsev
    have hge : 4 ≤ maxRank l := by
      have := mem_sevRank_le_maxRank hi
      rw [hsev'] at this
      simpa [sevRank] using this
    have hle : maxRank l ≤ 4 := maxRank_le fun j _ => sevRank_le_four j.severity
    have h4 : maxRank l = 4 := le_antisymm hle hge
    simp [statusOf, hB, h4, statusOfRank]
  · have hnb : ∀ i ∈ l, i.severity ≠ "Blocker" := by
      intro i hi
      simp only [List.any_eq_true, not_exists] at hB
      intro hcon
      exact hB i ⟨hi, by simp [hcon]⟩
    by_cases hC : l.any (fun i => i.severity == "Critical") = true
    · obtain ⟨i, hi, hsev⟩ := List.any_eq_true.mp hC
      have hsev' : i.severity = "Critical" := by simpa using hsev
      have hge : 3 ≤ maxRank l := by
        have := mem_sevRank_le_maxRank hi
        rw [hsev'] at this
        simpa [sevRank] using this
      have hle : maxRank l ≤ 3 := maxRank_le fun j hj => sevRank_le_three (hnb j hj)
      have h3 : maxRank l = 3 := le_antisymm hle hge
      simp [statusOf, hB, hC, h3, statusOfRank]
    · have hnc : ∀ i ∈ l, i.severity ≠ "Critical" := by
        intro i hi
        simp only [List.any_eq_true, not_exists] at hC
        intro hcon
        exact hC i ⟨hi, by simp [hcon]⟩
      by_cases hW : l.any (fun i => i.severity == "Warning") = true
      · obtain ⟨i, hi, hsev⟩ := List.any_eq_true.mp hW
        have hsev' : i.severity = "Warning" := by simpa using hsev
        have hge : 2 ≤ maxRank l := by
          have := mem_sevRank_le_maxRank hi
          rw [hsev'] at this
          simpa [sevRank] using this
        have hle : maxRank l ≤ 2 :=
          maxRank_le fun j hj => sevRank_le_two (hnb j hj) (hnc j hj)
        have h2 : maxRank l = 2 := le_antisymm hle hge
        simp [statusOf, hB, hC, hW, h2, statusOfRank]
      · have hnw : ∀ i ∈ l, i.severity ≠ "Warning" := by
          intro i hi
          simp only [List.any_eq_true, not_exists] at hW
          intro hcon
          exact hW i ⟨hi, by simp [hcon]⟩
        by_cases hI : l.any (fun i => i.severity == "Info") = true
        · obtain ⟨i, hi, hsev⟩ := List.any_eq_true.mp hI
          have hsev' : i.severity = "Info" := by simpa using hsev
          have hge : 1 ≤ maxRank l := by
            have := mem_sevRank_le_maxRank hi
            rw [hsev'] at this
            simpa [sevRank] using this
          have hle : maxRank l ≤ 1 :=
            maxRank_le fun j hj => sevRank_le_one (hnb j hj) (hnc j hj) (hnw j hj)
          have h1 : maxRank l = 1 := le_antisymm hle hge
          simp [statusOf, hB, hC, hW, hI, h1, statusOfRank]
        · have hni : ∀ i ∈ l, i.severity ≠ "Info" := by
            intro i hi
            simp only [List.any_eq_true, not_exists] at hI
            intro hcon
            exact hI i ⟨hi, by simp [hcon]⟩
          have h0 : maxRank l = 0 :=
            Nat.le_zero.mp (maxRank_le fun j hj =>
              Nat.le_of_eq (sevRank_eq_zero (hnb j hj) (hnc j hj) (hnw j hj) (hni j hj)))
          simp [statusOf, hB, hC, hW, hI, h0, statusOfRank]

theorem sevRank_statusOfRank {n : Nat} (h : n ≤ 4) : sevRank (statusOfRank n) = n := by
  interval_cases n <;> decide

theorem absent_not_truthy {v : JsValue} (h : v.absent = true) : v.truthy = false := by
  cases v <;> simp_all [JsValue.absent, JsValue.isUndef, JsValue.isNull, JsValue.truthy]

theorem jsOr_of_absent {a b : JsValue} (h : a.absent = true) : jsOr a b = b := by
  unfold jsOr
  rw [absent_not_truthy h]
  simp

theorem walkPath_undef (ps : List String) : walkPath JsValue.undef ps = JsValue.undef := by
  induction ps with
  | nil => rfl
  | cons p t ih =>
    show walkPath (walkStep JsValue.undef p) t = JsValue.undef
    rw [show walkStep JsValue.undef p = JsValue.undef from rfl]
    exact ih

theorem walkPath_absent_cons {v : JsValue} (part : String) (ps : List String)
    (h : v.absent = true) : walkPath v (part :: ps) = JsValue.undef := by
  show walkPath (walkStep v part) ps = JsValue.undef
  have hst : walkStep v part = JsValue.undef := by
    unfold walkStep
    rw [absent_not_truthy h]
    simp
  rw [hst]
  exact walkPath_undef ps

theorem typeCondGates_false_of_absent {res : JsValue} {rule : Rule} {cond : Condition}
    (t : String) (hc : rule.condition = some cond)
    (ha : (getNestedValue res cond.field).absent = true) :
    typeCondGates res rule t = false := by
  unfold typeCondGates
  split
  · next heq => rw [hc] at heq; exact Option.noConfusion heq
  · next cnd heq =>
    rw [hc] at heq
    injection heq with heq2
    subst heq2
    simp only [JsValue.absent, Bool.or_eq_true] at ha
    rcases ha with ha | ha <;> simp [ha]

theorem typeCondGates_false_of_unknown_op {res : JsValue} {rule : Rule} {cond : Condition}
    (t : String) (hc : rule.condition = some cond)
    (h1 : cond.operator ≠ "eq") (h2 : cond.operator ≠ "neq")
    (h3 : cond.operator ≠ "contains") (h4 : cond.operator ≠ "notEmpty") :
    typeCondGates res rule t = false := by
  unfold typeCondGates
  split
  · next heq => rw [hc] at heq; exact Option.noConfusion heq
  · next cnd heq =>
    rw [hc] at heq
    injection heq with heq2
    subst heq2
    split <;>
      first
      | (exact absurd (by assumption) h1)
      | (exact absurd (by assumption) h2)
      | (exact absurd (by assumption) h3)
      | (exact absurd (by assumption) h4)
      | simp

theorem createMock_type (provider ty notes : String) :
    (createMockResource provider ty notes).get "type" = JsValue.str (provider ++ "/" ++ ty) := by
  unfold createMockResource
  rfl

theorem createMock_isStr (provider ty notes : String) :
    ((createMockResource provider ty notes).get "type").isStr = true := by
  rw [createMock_type]
  rfl

/-- What one well-formed five-column CSV row does in `runIntegrationTest`:
exactly two engine checks (subscription on column 4, region on column 5),
with the accumulator updated per the should-block mapping. -/
theorem processCols_row_eq (rules : List Rule) (c0 c1 c2 c3 c4 : String) (i : Nat)
    (acc : LogicResult) :
    ∃ subRes regRes,
      analyzeResource rules (createMockResource (strTrim c0) (strTrim c1) (strTrim c3))
          ScenarioKind.crossSubscription = some subRes
      ∧ analyzeResource rules (createMockResource (strTrim c0) (strTrim c1) (strTrim c4))
          ScenarioKind.crossRegion = some regRes
      ∧ processCols rules [c0, c1, c2, c3, c4] i acc
          = some (LogicResult.mk
              (acc.passed
                + (if expBlockOf (strTrim c3) && subRes.migrationStatus != "Blocker" then 0 else 1)
                + (if expBlockOf (strTrim c4) && regRes.migrationStatus != "Critical"
                      && regRes.migrationStatus != "Warning" then 0 else 1))
              (acc.failed
                + (if expBlockOf (strTrim c3) && subRes.migrationStatus != "Blocker" then 1 else 0)
                + (if expBlockOf (strTrim c4) && regRes.migrationStatus != "Critical"
                      && regRes.migrationStatus != "Warning" then 1 else 0))
              (acc.total + 2)
              (acc.failures
                ++ (if expBlockOf (strTrim c3) && subRes.migrationStatus != "Blocker" then
                      [FailureDetail.mk (i + 1) (strTrim c0 ++ "/" ++ strTrim c1) "Sub"
                        "Blocker" subRes.migrationStatus]
                    else [])
                ++ (if expBlockOf (strTrim c4) && regRes.migrationStatus != "Critical"
                      && regRes.migrationStatus != "Warning" then
                      [FailureDetail.mk (i + 1) (strTrim c0 ++ "/" ++ strTrim c1) "Region"
                        "Critical" regRes.migrationStatus]
                    else []))) := by
  have hsub := analyzeResource_char rules
    (createMockResource (strTrim c0) (strTrim c1) (strTrim c3)) ScenarioKind.crossSubscription
    (createMock_isStr _ _ _)
  have hreg := analyzeResource_char rules
    (createMockResource (strTrim c0) (strTrim c1) (strTrim c4)) ScenarioKind.crossRegion
    (createMock_isStr _ _ _)
  refine ⟨_, _, hsub, hreg, ?_⟩
  unfold processCols
  rw [if_neg (by simp)]
  simp only [List.getD_cons_zero, List.getD_cons_succ]
  rw [hsub, hreg]
  by_cases hS : expBlockOf (strTrim c3)
      && (buildAnalyzed (createMockResource (strTrim c0) (strTrim c1) (strTrim c3))
          (issuesOf rules (createMockResource (strTrim c0) (strTrim c1) (strTrim c3))
            ScenarioKind.crossSubscription)).migrationStatus != "Blocker" <;>
    by_cases hR : expBlockOf (strTrim c4)
        && (buildAnalyzed (createMockResource (strTrim c0) (strTrim c1) (strTrim c4))
            (issuesOf rules (createMockResource (strTrim c0) (strTrim c1) (strTrim c4))
              ScenarioKind.crossRegion)).migrationStatus != "Critical"
        && (buildAnalyzed (createMockResource (strTrim c0) (strTrim c1) (strTrim c4))
            (issuesOf rules (createMockResource (strTrim c0) (strTrim c1) (strTrim c4))
              ScenarioKind.crossRegion)).migrationStatus != "Warning" <;>
    simp [hS, hR]

/-- Modelled from the spec: the rule corpus JSON files (`rules.json`,
`rules-rg.json`, `rules-sub.json`, `rules-region.json`) imported by
engine.ts are configuration data missing from the source tree; this corpus
realises the behaviours §8 of the spec prescribes — Key Vault critical on
tenant move, Standard-SKU public IPs blocked on subscription move, SQL
servers blocked on subscription move and critical on region move, storage
accounts blocked on subscription move. -/
def specRules : List Rule := [
  Rule.mk "kv-tenant" "cross-tenant" "microsoft.keyvault/vaults" "Critical"
    "Tenant ID association is lost" "" "" false "" none,
  Rule.mk "pip-standard-sub" "cross-subscription" "microsoft.network/publicipaddresses"
    "Blocker" "Standard SKU public IPs cannot move" "" "" false ""
    (some (Condition.mk "sku.name" "eq" (JsValue.str "Standard"))),
  Rule.mk "sql-sub" "cross-subscription" "microsoft.sql/*" "Blocker"
    "SQL servers cannot move across subscriptions" "" "" false "" none,
  Rule.mk "storage-sub" "cross-subscription" "microsoft.storage/storageaccounts" "Blocker"
    "" "" "" false "" none,
  Rule.mk "sql-region" "cross-region" "microsoft.sql/*" "Critical"
    "SQL requires redeployment" "" "" false "" none]

/-- Sanity check of the spec-modelled corpus: the reference row
`"Microsoft.Sql;servers;No;No;No"` from §8 of the spec produces two passes
(Blocker on subscription move, Critical on region move). -/
theorem specRules_sql_row_conforms :
    processLine specRules "Microsoft.Sql;servers;No;No;No" 1 (LogicResult.mk 0 0 0 [])
      = some (LogicResult.mk 2 0 2 []) := by
  decide

/-! ### Witness fixtures -/

def wRuleBlocker : Rule :=
  Rule.mk "w-blocker" "cross-tenant" "*" "Blocker" "m" "i" "w" false "" none

def wRuleBogus : Rule :=
  Rule.mk "w-bogus" "cross-tenant" "*" "Advisory" "m" "i" "w" false "" none

def wRuleCond : Rule :=
  Rule.mk "w-cond" "cross-tenant" "*" "Warning" "m" "i" "w" false ""
    (some (Condition.mk "sku.name" "weirdOp" (JsValue.str "Standard")))

def wRuleSql : Rule :=
  Rule.mk "w-sql" "cross-subscription" "microsoft.sql/*" "Blocker" "m" "i" "w" false "" none

def wRes : JsValue := JsValue.obj [("type", JsValue.str "microsoft.web/sites")]

def wResSql : JsValue := JsValue.obj [("type", JsValue.str "microsoft.sql/servers")]

def wResSqlVm : JsValue :=
  JsValue.obj [("type", JsValue.str "microsoft.sqlvirtualmachines/servers")]

def wResStd : JsValue := JsValue.obj [("type", JsValue.str "a/b"),
  ("sku", JsValue.obj [("name", JsValue.str "Standard")])]

def wNested : JsValue := JsValue.obj [("sku", JsValue.null)]

/-! ### Claim theorems -/

/-- C1: for every resource record whose `type` field is a string (as every
structurally-plausible record per §3 has) and every scenario,
`analyzeResource` walks the corpus in corpus order, appending exactly one
issue per firing rule — the issue list is the corpus-order filter of the
rules by the matcher, not sorted by severity — and `migrationStatus` is the
highest-wins reduction over Blocker > Critical > Warning > Info, with
`"Ready"` when no rule fired. -/
theorem C1_corpus_order_highest_wins (rules : List Rule) (res : JsValue) (sk : ScenarioKind)
    (h : (res.get "type").isStr = true) :
    ∃ out, analyzeResource rules res sk = some out
      ∧ out.issues = (rules.filter (fun r => evaluateRule res r sk == some true)).map mkIssue
      ∧ out.migrationStatus = statusOfRank (maxRank out.issues)
      ∧ (out.issues = [] → out.migrationStatus = "Ready") := by
  refine ⟨buildAnalyzed res (issuesOf rules res sk), analyzeResource_char rules res sk h,
    rfl, ?_, ?_⟩
  · show statusOf (issuesOf rules res sk) = _
    rw [statusOf_eq]
    rfl
  · intro he
    show statusOf (issuesOf rules res sk) = "Ready"
    have hni : issuesOf rules res sk = [] := he
    rw [hni]
    rfl

/-- Witness for C1 at a concrete corpus and record. -/
theorem C1_corpus_order_highest_wins_witness :
    ∃ out, analyzeResource [wRuleBlocker] wRes ScenarioKind.crossTenant = some out
      ∧ out.issues = ([wRuleBlocker].filter
          (fun r => evaluateRule wRes r ScenarioKind.crossTenant == some true)).map mkIssue
      ∧ out.migrationStatus = statusOfRank (maxRank out.issues)
      ∧ (out.issues = [] → out.migrationStatus = "Ready") :=
  C1_corpus_order_highest_wins [wRuleBlocker] wRes ScenarioKind.crossTenant rfl

/-- C2: the scenario gate passes iff the rule scenario equals the requested
scenario, or the requested scenario is `cross-resourcegroup` and the rule
scenario is `cross-subscription`; consequently a `cross-subscription` rule
behaves under `cross-resourcegroup` exactly as under `cross-subscription`,
and never matches under `cross-region` or `cross-tenant`. -/
theorem C2_scenario_inheritance (rs : String) (sk : ScenarioKind) (res : JsValue) (rule : Rule) :
    (scenarioGate rs sk = true ↔
      (rs = scenarioStr sk ∨ (sk = ScenarioKind.crossResourcegroup ∧ rs = "cross-subscription")))
    ∧ (rule.scenarioName = "cross-subscription" →
        evaluateRule res rule ScenarioKind.crossResourcegroup
            = evaluateRule res rule ScenarioKind.crossSubscription
          ∧ evaluateRule res rule ScenarioKind.crossRegion = some false
          ∧ evaluateRule res rule ScenarioKind.crossTenant = some false) := by
  constructor
  · cases sk <;> simp [scenarioGate, scenarioStr]
  · intro h
    refine ⟨?_, ?_, ?_⟩ <;> simp [evaluateRule, scenarioGate, scenarioStr, h]

/-- Witness for C2 with a concrete subscription-move rule. -/
theorem C2_scenario_inheritance_witness :
    evaluateRule wResSql wRuleSql ScenarioKind.crossResourcegroup
        = evaluateRule wResSql wRuleSql ScenarioKind.crossSubscription
      ∧ evaluateRule wResSql wRuleSql ScenarioKind.crossRegion = some false
      ∧ evaluateRule wResSql wRuleSql ScenarioKind.crossTenant = some false :=
  (C2_scenario_inheritance "cross-subscription" ScenarioKind.crossResourcegroup
    wResSql wRuleSql).2 rfl

/-- C3: the type gate (on the lowercased strings) passes iff the pattern is
a bare `*`, an exact match, or a `/*` pattern whose stripped prefix starts
the resource type at a `/` boundary (equal lengths or a `/` right after the
prefix); in particular a rule with pattern `microsoft.sql/*` never matches
a record of type `microsoft.sqlvirtualmachines/servers` and does match
`microsoft.sql/servers` whenever its other gates pass. -/
theorem C3_type_gate_wildcard (resType ruleType : String) (res : JsValue) (rule : Rule)
    (sk : ScenarioKind) :
    (typeMatches resType ruleType = true ↔
      (ruleType = "*" ∨ ruleType = resType
        ∨ (strEnds ruleType "/*" = true
            ∧ strStarts resType (strDropRight ruleType 2) = true
            ∧ (strLen resType = strLen (strDropRight ruleType 2)
               ∨ charAt resType (strLen (strDropRight ruleType 2)) = some '/'))))
    ∧ (rule.resourceType = "microsoft.sql/*" →
        res.get "type" = JsValue.str "microsoft.sqlvirtualmachines/servers" →
        evaluateRule res rule sk ≠ some true)
    ∧ (rule.resourceType = "microsoft.sql/*" → rule.condition = none →
        scenarioGate rule.scenarioName sk = true →
        res.get "type" = JsValue.str "microsoft.sql/servers" →
        evaluateRule res rule sk = some true) := by
  refine ⟨?_, ?_, ?_⟩
  · unfold typeMatches
    split_ifs with hA hB <;> simp_all
    tauto
  · intro h1 h2
    unfold evaluateRule
    split
    · simp
    · split
      · next t ht =>
        rw [h2] at ht
        injection ht with ht2
        subst ht2
        have hm : typeCondGates res rule "microsoft.sqlvirtualmachines/servers" = false := by
          unfold typeCondGates
          rw [h1]
          simp only []
          rw [show typeMatches (strLower "microsoft.sqlvirtualmachines/servers")
              (strLower "microsoft.sql/*") = false from by decide]
          simp
        rw [hm]
        simp
      · next t hv => exact (hv _ h2).elim
  · intro h1 hcnone hg h2
    unfold evaluateRule
    rw [hg, h2]
    show some (typeCondGates res rule "microsoft.sql/servers") = some true
    have hm : typeCondGates res rule "microsoft.sql/servers" = true := by
      unfold typeCondGates
      rw [h1, hcnone]
      simp only []
      rw [show typeMatches (strLower "microsoft.sql/servers")
          (strLower "microsoft.sql/*") = true from by decide]
      simp
    rw [hm]

/-- Witness for C3: the prefix-boundary pair of the spec, on concrete
records and the concrete subscription-move SQL rule. -/
theorem C3_type_gate_wildcard_witness :
    evaluateRule wResSqlVm wRuleSql ScenarioKind.crossSubscription ≠ some true
      ∧ evaluateRule wResSql wRuleSql ScenarioKind.crossSubscription = some true :=
  ⟨(C3_type_gate_wildcard "" "" wResSqlVm wRuleSql ScenarioKind.crossSubscription).2.1 rfl rfl,
   (C3_type_gate_wildcard "" "" wResSql wRuleSql ScenarioKind.crossSubscription).2.2
     rfl rfl (by decide) rfl⟩

/-- C4: the condition gate fails closed — a rule whose condition field
resolves to absent (`undefined`/`null`) never fires, whatever the operator;
and with the field present, an operator outside {eq, neq, contains,
notEmpty} makes the rule evaluate to "does not fire" (`some false`) rather
than throwing. -/
theorem C4_fail_closed (res : JsValue) (rule : Rule) (sk : ScenarioKind) (cond : Condition)
    (hc : rule.condition = some cond) :
    ((getNestedValue res cond.field).absent = true → evaluateRule res rule sk ≠ some true)
    ∧ ((res.get "type").isStr = true →
        cond.operator ≠ "eq" → cond.operator ≠ "neq" →
        cond.operator ≠ "contains" → cond.operator ≠ "notEmpty" →
        evaluateRule res rule sk = some false) := by
  constructor
  · intro ha
    unfold evaluateRule
    split
    · simp
    · split
      · next t ht =>
        rw [typeCondGates_false_of_absent t hc ha]
        simp
      · simp
  · intro hs h1 h2 h3 h4
    unfold evaluateRule
    split
    · rfl
    · split
      · next t ht => rw [typeCondGates_false_of_unknown_op t hc h1 h2 h3 h4]
      · next t hv =>
        cases hg : res.get "type"
        case str s => exact (hv s hg).elim
        all_goals rw [hg] at hs; simp [JsValue.isStr] at hs

/-- Witness for C4: a record without the `sku.name` field never fires the
conditioned rule, and the unknown operator `weirdOp` yields `some false` on
a record that does carry the field. -/
theorem C4_fail_closed_witness :
    evaluateRule wRes wRuleCond ScenarioKind.crossTenant ≠ some true
      ∧ evaluateRule wResStd wRuleCond ScenarioKind.crossTenant = some false :=
  ⟨(C4_fail_closed wRes wRuleCond ScenarioKind.crossTenant
      (Condition.mk "sku.name" "weirdOp" (JsValue.str "Standard")) rfl).1 rfl,
   (C4_fail_closed wResStd wRuleCond ScenarioKind.crossTenant
      (Condition.mk "sku.name" "weirdOp" (JsValue.str "Standard")) rfl).2 rfl
     (by decide) (by decide) (by decide) (by decide)⟩

/-- C5: the field resolver splits the non-empty path on `.` and folds over
the record; as soon as the walk reaches an absent value (`undefined` or
`null`) or a missing segment, the final result is absent, for every
remaining path suffix — and as a total Lean function the resolver never
throws. -/
theorem C5_resolver_absence (obj v : JsValue) (path : String) (ps qs : List String)
    (part : String) :
    (path ≠ "" → getNestedValue obj path = walkPath obj (strSplit path '.'))
    ∧ (v.absent = true → walkPath v (part :: ps) = JsValue.undef)
    ∧ ((walkPath obj ps).absent = true → (walkPath obj (ps ++ qs)).absent = true)
    ∧ ((walkPath obj ps).get part = JsValue.undef →
        (walkPath obj (ps ++ part :: qs)).absent = true) := by
  refine ⟨?_, fun h => walkPath_absent_cons part ps h, ?_, ?_⟩
  · intro hp
    unfold getNestedValue
    rw [if_neg (by simpa using hp)]
  · intro h
    rw [show walkPath obj (ps ++ qs) = walkPath (walkPath obj ps) qs from
      List.foldl_append _ _ _ _]
    cases qs with
    | nil => exact h
    | cons q t =>
      rw [walkPath_absent_cons q t h]
      rfl
  · intro h
    rw [show walkPath obj (ps ++ part :: qs) = walkPath (walkPath obj ps) (part :: qs) from
      List.foldl_append _ _ _ _]
    show (walkPath (walkStep (walkPath obj ps) part) qs).absent = true
    have hstep : walkStep (walkPath obj ps) part = JsValue.undef := by
      unfold walkStep
      rw [h]
      simp [JsValue.isUndef]
    rw [hstep, walkPath_undef]
    rfl

/-- Witness for C5 on a record whose `sku` field is explicitly `null`. -/
theorem C5_resolver_absence_witness :
    getNestedValue wNested "sku.name" = walkPath wNested (strSplit "sku.name" '.')
      ∧ walkPath JsValue.null ["name"] = JsValue.undef
      ∧ (walkPath wNested (["sku", "name"] ++ ["deeper"])).absent = true
      ∧ (walkPath wNested (["sku"] ++ "name" :: [])).absent = true :=
  ⟨(C5_resolver_absence wNested JsValue.null "sku.name" [] [] "x").1 (by decide),
   (C5_resolver_absence wNested JsValue.null "x" [] [] "name").2.1 rfl,
   (C5_resolver_absence wNested JsValue.null "x" ["sku", "name"] ["deeper"] "x").2.2.1 rfl,
   (C5_resolver_absence wNested JsValue.null "x" ["sku"] [] "name").2.2.2 rfl⟩

/-- C6: on every record whose `type` is a string (structurally plausible
per §3) `analyzeResource` returns a verdict instead of throwing, and in the
returned record an absent subscription name (either casing) falls back to
the computed subscription id while an absent resource group (either casing)
becomes the sentinel `"No Resource Group"`. -/
theorem C6_total_defensive_defaults (rules : List Rule) (res : JsValue) (sk : ScenarioKind)
    (h : (res.get "type").isStr = true) :
    ∃ out, analyzeResource rules res sk = some out
      ∧ ((res.get "subscriptionName").absent = true →
         (res.get "subscriptionname").absent = true →
         out.subscriptionName = out.subscriptionId)
      ∧ ((res.get "resourceGroup").absent = true →
         (res.get "resourcegroup").absent = true →
         out.resourceGroup = JsValue.str "No Resource Group") := by
  refine ⟨buildAnalyzed res (issuesOf rules res sk), analyzeResource_char rules res sk h, ?_, ?_⟩
  · intro h1 h2
    show jsOr (res.get "subscriptionName") (jsOr (res.get "subscriptionname") _)
        = jsOr (res.get "subscriptionId")
            (jsOr (res.get "subscriptionid") (JsValue.str "unknown-sub-id"))
    rw [jsOr_of_absent h1, jsOr_of_absent h2]
  · intro h1 h2
    show jsOr (res.get "resourceGroup")
        (jsOr (res.get "resourcegroup") (JsValue.str "No Resource Group"))
        = JsValue.str "No Resource Group"
    rw [jsOr_of_absent h1, jsOr_of_absent h2]

/-- Witness for C6: a record carrying only a `type` gets a verdict with the
subscription-id fallback and the resource-group sentinel. -/
theorem C6_total_defensive_defaults_witness :
    ∃ out, analyzeResource [wRuleBlocker] wRes ScenarioKind.crossRegion = some out
      ∧ out.subscriptionName = out.subscriptionId
      ∧ out.resourceGroup = JsValue.str "No Resource Group" := by
  obtain ⟨out, h1, h2, h3⟩ :=
    C6_total_defensive_defaults [wRuleBlocker] wRes ScenarioKind.crossRegion rfl
  exact ⟨out, h1, h2 rfl rfl, h3 rfl rfl⟩

/-- C7 counterexample: the cell `"Note"` is neither `"No"` nor `"Pending"`
(also case-insensitively), so per the claim the check should pass
unconditionally; yet the harness records a Sub failure for the row, because
its mapping is `startsWith "no"`.  Moreover only two checks run for the row
(`total` grows by 2): no resource-group check exists. -/
theorem C7_row_checks_counterexample :
    ("Note" ≠ "No" ∧ "Note" ≠ "Pending"
      ∧ strLower "Note" ≠ "no" ∧ strLower "Note" ≠ "pending")
    ∧ processLine specRules "Example.Provider;widgets;Yes;Note;Yes" 1 (LogicResult.mk 0 0 0 [])
        = some (LogicResult.mk 1 1 2
            [FailureDetail.mk 2 "Example.Provider/widgets" "Sub" "Blocker" "Ready"]) := by
  decide

/-- C7 (amended): for each well-formed five-column CSV row the harness runs
exactly two checks — a subscription-move check driven by the fourth column
and a region-move check driven by the fifth; a cell maps to should-block
when its lowercased trimmed text starts with `"no"` or equals `"pending"`;
a should-block subscription check records a failure iff the verdict is not
exactly `Blocker`, a should-block region check iff the verdict is neither
`Critical` nor `Warning`; each failure carries the row number and the
expected/actual labels. -/
theorem C7_row_checks_amended (rules : List Rule) (c0 c1 c2 c3 c4 : String) (i : Nat)
    (acc : LogicResult) :
    ∃ subRes regRes,
      analyzeResource rules (createMockResource (strTrim c0) (strTrim c1) (strTrim c3))
          ScenarioKind.crossSubscription = some subRes
      ∧ analyzeResource rules (createMockResource (strTrim c0) (strTrim c1) (strTrim c4))
          ScenarioKind.crossRegion = some regRes
      ∧ processCols rules [c0, c1, c2, c3, c4] i acc
          = some (LogicResult.mk
              (acc.passed
                + (if expBlockOf (strTrim c3) && subRes.migrationStatus != "Blocker" then 0 else 1)
                + (if expBlockOf (strTrim c4) && regRes.migrationStatus != "Critical"
                      && regRes.migrationStatus != "Warning" then 0 else 1))
              (acc.failed
                + (if expBlockOf (strTrim c3) && subRes.migrationStatus != "Blocker" then 1 else 0)
                + (if expBlockOf (strTrim c4) && regRes.migrationStatus != "Critical"
                      && regRes.migrationStatus != "Warning" then 1 else 0))
              (acc.total + 2)
              (acc.failures
                ++ (if expBlockOf (strTrim c3) && subRes.migrationStatus != "Blocker" then
                      [FailureDetail.mk (i + 1) (strTrim c0 ++ "/" ++ strTrim c1) "Sub"
                        "Blocker" subRes.migrationStatus]
                    else [])
                ++ (if expBlockOf (strTrim c4) && regRes.migrationStatus != "Critical"
                      && regRes.migrationStatus != "Warning" then
                      [FailureDetail.mk (i + 1) (strTrim c0 ++ "/" ++ strTrim c1) "Region"
                        "Critical" regRes.migrationStatus]
                    else []))) :=
  processCols_row_eq rules c0 c1 c2 c3 c4 i acc

/-- C8: the harness is asymmetric, per check — a cell that does not map to
should-block makes its check pass unconditionally, whatever verdict the
engine produces and independently of the other cell (no Sub-labelled
failure is added for a benign subscription cell, no Region-labelled failure
for a benign region cell, and a pass is counted), while a should-block cell
whose verdict misses the expected bucket (`Blocker` for subscription moves,
`Critical`/`Warning` for region moves) always records a failure carrying
the row number and expected/actual labels. -/
theorem C8_asymmetric_conformance (rules : List Rule) (c0 c1 c2 c3 c4 : String) (i : Nat)
    (acc out : LogicResult) (subRes regRes : AnalyzedResource)
    (hs : analyzeResource rules (createMockResource (strTrim c0) (strTrim c1) (strTrim c3))
        ScenarioKind.crossSubscription = some subRes)
    (hr : analyzeResource rules (createMockResource (strTrim c0) (strTrim c1) (strTrim c4))
        ScenarioKind.crossRegion = some regRes)
    (h : processCols rules [c0, c1, c2, c3, c4] i acc = some out) :
    (expBlockOf (strTrim c3) = false →
      out.failures.filter (fun fd => fd.scenarioLabel == "Sub")
          = acc.failures.filter (fun fd => fd.scenarioLabel == "Sub")
        ∧ acc.passed + 1 ≤ out.passed)
    ∧ (expBlockOf (strTrim c4) = false →
      out.failures.filter (fun fd => fd.scenarioLabel == "Region")
          = acc.failures.filter (fun fd => fd.scenarioLabel == "Region")
        ∧ acc.passed + 1 ≤ out.passed)
    ∧ (expBlockOf (strTrim c3) = true → subRes.migrationStatus ≠ "Blocker" →
      FailureDetail.mk (i + 1) (strTrim c0 ++ "/" ++ strTrim c1) "Sub" "Blocker"
          subRes.migrationStatus ∈ out.failures
        ∧ acc.failed + 1 ≤ out.failed)
    ∧ (expBlockOf (strTrim c4) = true → regRes.migrationStatus ≠ "Critical" →
      regRes.migrationStatus ≠ "Warning" →
      FailureDetail.mk (i + 1) (strTrim c0 ++ "/" ++ strTrim c1) "Region" "Critical"
          regRes.migrationStatus ∈ out.failures
        ∧ acc.failed + 1 ≤ out.failed) := by
  obtain ⟨s2, r2, hs2, hr2, heq⟩ := processCols_row_eq rules c0 c1 c2 c3 c4 i acc
  rw [hs] at hs2
  injection hs2 with hseq
  subst hseq
  rw [hr] at hr2
  injection hr2 with hreq
  subst hreq
  rw [heq] at h
  injection h with h2
  subst h2
  refine ⟨?_, ?_, ?_, ?_⟩
  · intro h3
    have hsf : (expBlockOf (strTrim c3) && subRes.migrationStatus != "Blocker") = false := by
      simp [h3]
    constructor
    · by_cases hR : (expBlockOf (strTrim c4) && regRes.migrationStatus != "Critical"
          && regRes.migrationStatus != "Warning") = true <;>
        simp [hsf, hR, List.filter_append]
    · by_cases hR : (expBlockOf (strTrim c4) && regRes.migrationStatus != "Critical"
          && regRes.migrationStatus != "Warning") = true <;>
        simp [hsf, hR]
  · intro h4
    have hrf : (expBlockOf (strTrim c4) && regRes.migrationStatus != "Critical"
        && regRes.migrationStatus != "Warning") = false := by
      simp [h4]
    constructor
    · by_cases hS : (expBlockOf (strTrim c3) && subRes.migrationStatus != "Blocker") = true <;>
        simp [hrf, hS, List.filter_append]
    · by_cases hS : (expBlockOf (strTrim c3) && subRes.migrationStatus != "Blocker") = true <;>
        simp [hrf, hS]
  · intro hexp hnb
    have hcond : (expBlockOf (strTrim c3) && subRes.migrationStatus != "Blocker") = true := by
      simp [hexp, bne_iff_ne]
      exact hnb
    constructor
    · simp [hcond]
    · by_cases hR : (expBlockOf (strTrim c4) && regRes.migrationStatus != "Critical"
          && regRes.migrationStatus != "Warning") = true <;> simp [hcond, hR]
  · intro hexp hnc hnw
    have hcond : (expBlockOf (strTrim c4) && regRes.migrationStatus != "Critical"
        && regRes.migrationStatus != "Warning") = true := by
      simp [hexp, bne_iff_ne]
      exact ⟨hnc, hnw⟩
    constructor
    · simp [hcond]
    · by_cases hS : (expBlockOf (strTrim c3) && subRes.migrationStatus != "Blocker") = true <;>
        simp [hcond, hS]

/-- Witness for C8 on the row `"P;q;Yes;No;Yes"` with the spec-modelled
corpus: the mock matches no rule, so the benign region cell passes
unconditionally while the should-block subscription check records the
failure. -/
theorem C8_asymmetric_conformance_witness :
    (List.filter (fun fd => fd.scenarioLabel == "Region")
          [FailureDetail.mk 2 "P/q" "Sub" "Blocker" "Ready"]
        = List.filter (fun fd => fd.scenarioLabel == "Region") ([] : List FailureDetail)
      ∧ 0 + 1 ≤ 1)
    ∧ (FailureDetail.mk 2 "P/q" "Sub" "Blocker" "Ready"
          ∈ [FailureDetail.mk 2 "P/q" "Sub" "Blocker" "Ready"]
      ∧ 0 + 1 ≤ 1) :=
  have h := C8_asymmetric_conformance specRules "P" "q" "Yes" "No" "Yes" 1
    (LogicResult.mk 0 0 0 [])
    (LogicResult.mk 1 1 2 [FailureDetail.mk 2 "P/q" "Sub" "Blocker" "Ready"])
    (buildAnalyzed (createMockResource "P" "q" "No")
      (issuesOf specRules (createMockResource "P" "q" "No") ScenarioKind.crossSubscription))
    (buildAnalyzed (createMockResource "P" "q" "Yes")
      (issuesOf specRules (createMockResource "P" "q" "Yes") ScenarioKind.crossRegion))
    rfl rfl (by decide)
  ⟨h.2.1 (by decide), h.2.2.1 (by decide) (by decide)⟩

/-- C9: severity monotonicity — if (under the same corpus and scenario)
the issue set of one analyzed record contains that of another, its verdict
ranks at least as high under Blocker > Critical > Warning > Info > Ready. -/
theorem C9_severity_monotone (rules : List Rule) (res1 res2 : JsValue) (sk : ScenarioKind)
    (out1 out2 : AnalyzedResource)
    (h1 : analyzeResource rules res1 sk = some out1)
    (h2 : analyzeResource rules res2 sk = some out2)
    (hsub : ∀ i, i ∈ out2.issues → i ∈ out1.issues) :
    sevRank out2.migrationStatus ≤ sevRank out1.migrationStatus := by
  rw [analyzeResource_status h1, analyzeResource_status h2, statusOf_eq, statusOf_eq]
  have l1 : maxRank out1.issues ≤ 4 := maxRank_le fun j _ => sevRank_le_four j.severity
  have l2 : maxRank out2.issues ≤ 4 := maxRank_le fun j _ => sevRank_le_four j.severity
  rw [sevRank_statusOfRank l1, sevRank_statusOfRank l2]
  exact maxRank_le fun i hi => mem_sevRank_le_maxRank (hsub i hi)

/-- Witness for C9: a record that fires the SQL blocker versus one firing
nothing. -/
theorem C9_severity_monotone_witness :
    sevRank (buildAnalyzed wRes ([] : List Issue)).migrationStatus
      ≤ sevRank (buildAnalyzed wResSql [mkIssue wRuleSql]).migrationStatus :=
  C9_severity_monotone [wRuleSql] wResSql wRes ScenarioKind.crossSubscription
    (buildAnalyzed wResSql [mkIssue wRuleSql]) (buildAnalyzed wRes [])
    rfl rfl (fun i hi => absurd hi (List.not_mem_nil i))

/-- C10: if every collected issue has a severity outside
{Blocker, Critical, Warning, Info}, the verdict is `"Ready"` even though
the issue list is non-empty — so `"Ready"` does not imply an empty issue
list. -/
theorem C10_unknown_severity_ready (rules : List Rule) (res : JsValue) (sk : ScenarioKind)
    (out : AnalyzedResource) (h : analyzeResource rules res sk = some out)
    (hsev : ∀ i ∈ out.issues, i.severity ≠ "Blocker" ∧ i.severity ≠ "Critical"
            ∧ i.severity ≠ "Warning" ∧ i.severity ≠ "Info") :
    out.migrationStatus = "Ready" := by
  rw [analyzeResource_status h, statusOf_eq]
  have h0 : maxRank out.issues = 0 := Nat.le_zero.mp (maxRank_le fun i hi =>
    Nat.le_of_eq (sevRank_eq_zero (hsev i hi).1 (hsev i hi).2.1 (hsev i hi).2.2.1 (hsev i hi).2.2.2))
  rw [h0]
  rfl

/-- Witness for C10: a rule with severity `"Advisory"` fires, the issue
list is non-empty, yet the verdict is `"Ready"`. -/
theorem C10_unknown_severity_ready_witness :
    (buildAnalyzed wRes [mkIssue wRuleBogus]).migrationStatus = "Ready"
      ∧ (buildAnalyzed wRes [mkIssue wRuleBogus]).issues ≠ [] :=
  ⟨C10_unknown_severity_ready [wRuleBogus] wRes ScenarioKind.crossTenant
      (buildAnalyzed wRes [mkIssue wRuleBogus]) rfl (by decide),
   by decide⟩
